import Mathlib

/-
Shallow embedding of the core of `speech-to-phrase-validator`:
the lexicon stores (`src/validator/lexicon_wrapper_v1.5.8.py`,
`src/validator/lexicon_wrapper.py`, `src/validator/standalone_lexicon.py`)
and the confidence predictor (`src/validator/predictor.py`).

Modelling conventions:
- Python strings are `List Char`; the case functions model Python
  `str.lower` / `str.upper` / `str.title` on the basic-latin range, which is
  also exactly the folding SQLite applies for `COLLATE NOCASE` and `LIKE`.
- Python floats are embedded as `Rat`; all score arithmetic in the source
  (sums, means, `min`, `max`, divisions by list lengths) is exact decimal
  arithmetic, so the rational model is the idealisation the spec intends.
- The sqlite `lexicon` table of `StandaloneLexicon` is a list of rows
  `(word, pronunciation-string)` in table order.
- Per-instance caches (`_word_cache`, `_g2p_cache`, `_cache`) are pure
  write-through memoisations of the functions embedded here: every cache
  write stores exactly the value the cacheless computation would return, so
  the embedding models the observable results of a fresh instance.
-/

namespace S2PV

/-- Python words / strings, modelled as lists of characters. -/
abbrev Word := List Char

/-- The characters of Python's `\s` class (ASCII range): space, tab,
newline, carriage return, vertical tab, form feed. -/
def isPySpace (c : Char) : Bool :=
  c = ' ' || c = '\t' || c = '\n' || c = '\r' || c.toNat = 11 || c.toNat = 12

/-- Python `str.lower` (basic-latin model, as in `Char.toLower`). -/
def pyLower (w : Word) : Word := w.map Char.toLower

/-- Python `str.upper` (basic-latin model). -/
def pyUpper (w : Word) : Word := w.map Char.toUpper

/-- Helper for `pyTitle`: the boolean records whether the previous character
was alphabetic (cased). -/
def pyTitleGo : Bool → Word → Word
  | _, [] => []
  | prevCased, c :: cs =>
    if c.isAlpha then
      (if prevCased then c.toLower else c.toUpper) :: pyTitleGo true cs
    else
      c :: pyTitleGo false cs

/-- Python `str.title`: uppercase each cased character that starts a run of
cased characters, lowercase the remaining cased characters. -/
def pyTitle (w : Word) : Word := pyTitleGo false w

/-- Python `str.strip`: drop leading and trailing whitespace. -/
def pyStrip (w : Word) : Word :=
  ((w.dropWhile isPySpace).reverse.dropWhile isPySpace).reverse

/-- Python `str.split()` with no argument: split on runs of whitespace and
drop empty pieces. -/
def splitWs (w : Word) : List Word :=
  (w.splitOnP isPySpace).filter (fun p => !p.isEmpty)

/-- Helper for `dedupFirst`, carrying the set of elements already seen. -/
def dedupFirstAux {α} [DecidableEq α] (seen : List α) : List α → List α
  | [] => []
  | a :: l =>
    if a ∈ seen then dedupFirstAux seen l
    else a :: dedupFirstAux (a :: seen) l

/-- Remove duplicates keeping the first occurrence of each element, as the
`seen`-set loop in `LexiconWrapper._word_variations` does (also the order in
which `SELECT DISTINCT` yields rows of a scanned table). -/
def dedupFirst {α} [DecidableEq α] (l : List α) : List α := dedupFirstAux [] l

/-- The Levenshtein edit-distance cell recurrence computed by the dynamic
programming matrices of `StandaloneLexicon._calculate_similarity` and
`LexiconWrapper._calculate_similarity` (insertion, deletion, substitution
each cost 1; the matrix is just a memoised evaluation of this recursion,
with rows `matrix[i][0] = i` and `matrix[0][j] = j` as base cases).
The fuel argument makes the recursion structural; every recursive call
shortens one of the words, so `xs.length + ys.length` fuel always
suffices and the `fuel = 0` fallback is unreachable. -/
def levenshteinFuel : Nat → Word → Word → Nat
  | _, [], ys => ys.length
  | _, xs, [] => xs.length
  | 0, _, _ => 0
  | fuel + 1, x :: xs, y :: ys =>
    let cost := if x = y then 0 else 1
    min (levenshteinFuel fuel xs (y :: ys) + 1)
      (min (levenshteinFuel fuel (x :: xs) ys + 1) (levenshteinFuel fuel xs ys + cost))

/-- The edit distance of two words (the bottom-right matrix cell). -/
def levenshtein (xs ys : Word) : Nat :=
  levenshteinFuel (xs.length + ys.length) xs ys

/-- `StandaloneLexicon._calculate_similarity`: similarity in `[0,1]` from
the edit distance; both empty-argument guards return `0.0` (the first guard
is written `0.0 if len(word2) == 0 else 0.0` in the source, hence `0` on
both sides), the `max_len == 0` guard is unreachable but kept. -/
def StandaloneLexicon.calculateSimilarity (word1 word2 : Word) : ℚ :=
  if word1.length = 0 then (if word2.length = 0 then 0 else 0)
  else if word2.length = 0 then 0
  else
    let maxLen : ℕ := max word1.length word2.length
    if maxLen = 0 then 1
    else max 0 (1 - (levenshtein word1 word2 : ℚ) / (maxLen : ℚ))

/-- `LexiconWrapper._calculate_similarity` (the legacy wrapper in
`lexicon_wrapper.py`): same distance conversion, but when both words are
empty it returns `1.0` (`return 0.0 if len2 > 0 else 1.0`), and the result
is not clamped below by `0`. -/
def LexiconWrapper.calculateSimilarity (word1 word2 : Word) : ℚ :=
  if word1.length = 0 then (if word2.length > 0 then 0 else 1)
  else if word2.length = 0 then 0
  else 1 - (levenshtein word1 word2 : ℚ) / ((max word1.length word2.length : ℕ) : ℚ)

/-! ## LexiconWrapper v1.5.8 — text-file lexicon (`lexicon_wrapper_v1.5.8.py`) -/

/-- The `_text_pronunciations` dictionary: insertion-ordered association
list from word to its list of pronunciations (each a list of phoneme
symbols). -/
abbrev TextDict := List (Word × List (List Word))

/-- Dictionary probe `word in dict` / `dict[word]` on the association list. -/
def alistFind (dict : TextDict) (key : Word) : Option (List (List Word)) :=
  (dict.find? (fun p => decide (p.1 = key))).map (fun p => p.2)

/-- One loop step of `LexiconWrapper._load_text_lexicon`: ensure the word is
a key, then append the phoneme list when it is non-empty. -/
def updateEntry (dict : TextDict) (word : Word) (phonemes : List Word) : TextDict :=
  let dict := if dict.any (fun p => decide (p.1 = word)) then dict else dict ++ [(word, [])]
  if phonemes.isEmpty then dict
  else dict.map (fun p => if p.1 = word then (p.1, p.2 ++ [phonemes]) else p)

/-- `LexiconWrapper._load_text_lexicon`: strip each line, skip blank lines
and `#` comments, split on whitespace into a word and its phonemes. -/
def loadTextLexicon (lines : List Word) : TextDict :=
  lines.foldl
    (fun dict rawLine =>
      let line := pyStrip rawLine
      if line.isEmpty || line.head? = some '#' then dict
      else
        match splitWs line with
        | [] => dict
        | word :: phonemes => updateEntry dict word phonemes)
    []

/-- `LexiconWrapper._load_word_set` for a text lexicon: the keys of
`_text_pronunciations`. -/
def wordKeys (dict : TextDict) : List Word := dict.map (fun p => p.1)

namespace LexiconWrapper

/-- `LexiconWrapper._word_variations` (v1.5.8): the query word, then its
lowercase, uppercase and title-case forms when they differ from the
original, deduplicated keeping generation order. -/
def wordVariations (word : Word) : List Word :=
  dedupFirst ([word]
    ++ (if word ≠ pyLower word then [pyLower word] else [])
    ++ (if word ≠ pyUpper word then [pyUpper word] else [])
    ++ (if word ≠ pyTitle word then [pyTitle word] else []))

/-- `LexiconWrapper.exists` (v1.5.8, text lexicon): true when some case
variation of the query is a known key. -/
def wexists (dict : TextDict) (word : Word) : Bool :=
  (wordVariations word).any (fun v => decide (v ∈ wordKeys dict))

/-- `LexiconWrapper.lookup` / `_lookup_text_lexicon` (v1.5.8, fresh cache):
the pronunciation list of the first case variation that is a key, `[]` when
none is. -/
def wlookup (dict : TextDict) (word : Word) : List (List Word) :=
  match (wordVariations word).findSome? (fun v => alistFind dict v) with
  | some pronunciations => pronunciations
  | none => []

end LexiconWrapper

/-! ## StandaloneLexicon (`standalone_lexicon.py`) -/

/-- Separators removed by `StandaloneLexicon.normalize_word` and used by
`validate_word_components`: the regex class `[_\-\s]`. -/
def isSep (c : Char) : Bool := c = '_' || c = '-' || isPySpace c

/-- `StandaloneLexicon.normalize_word`: lowercase, then delete every
underscore, hyphen and whitespace character. -/
def normalizeWord (word : Word) : Word :=
  (pyLower word).filter (fun c => !isSep c)

/-- sqlite `COLLATE NOCASE` equality (ASCII case folding). -/
def nocaseEq (a b : Word) : Bool := decide (pyLower a = pyLower b)

/-- sqlite `LIKE` pattern matching (as used with `COLLATE NOCASE`):
`%` matches any sequence, `_` any single character, other pattern
characters match case-insensitively. The fuel argument makes the recursion
structural; every recursive call shortens the pattern or the string, so
`pat.length + s.length` fuel always suffices. -/
def likeMatchFuel : Nat → Word → Word → Bool
  | _, [], s => s.isEmpty
  | 0, _, _ => false
  | fuel + 1, pat, s =>
    match pat, s with
    | [], s => s.isEmpty
    | '%' :: ps, [] => likeMatchFuel fuel ps []
    | '%' :: ps, c :: t => likeMatchFuel fuel ps (c :: t) || likeMatchFuel fuel ('%' :: ps) t
    | '_' :: _, [] => false
    | '_' :: ps, _ :: t => likeMatchFuel fuel ps t
    | _ :: _, [] => false
    | p :: ps, c :: t => (c.toLower = p.toLower) && likeMatchFuel fuel ps t

/-- sqlite `LIKE` with `NOCASE` on a pattern and a string. -/
def likeMatch (pat s : Word) : Bool :=
  likeMatchFuel (pat.length + s.length) pat s

/-- `G2PResult` from `standalone_lexicon.py`. -/
structure G2PResult where
  word : Word
  pronunciation : List Word
  confidence : ℚ
deriving DecidableEq, Repr

/-- The letter-to-phoneme table of `StandaloneLexicon._simulate_g2p`; the
value is the raw mapped string (split on whitespace before use, so `x`
yields two phonemes and `h` yields none); letters absent from the table are
skipped entirely. -/
def phonemeMapFind (c : Char) : Option Word :=
  if c = 'a' then some ['a'] else if c = 'e' then some ['e']
  else if c = 'i' then some ['i'] else if c = 'o' then some ['o']
  else if c = 'u' then some ['u'] else if c = 'b' then some ['b']
  else if c = 'c' then some ['k'] else if c = 'd' then some ['d']
  else if c = 'f' then some ['f'] else if c = 'g' then some ['g']
  else if c = 'h' then some [] else if c = 'l' then some ['l']
  else if c = 'm' then some ['m'] else if c = 'n' then some ['n']
  else if c = 'p' then some ['p'] else if c = 'q' then some ['k']
  else if c = 'r' then some ['r'] else if c = 's' then some ['s']
  else if c = 't' then some ['t'] else if c = 'v' then some ['v']
  else if c = 'w' then some ['w'] else if c = 'x' then some ['k', ' ', 's']
  else if c = 'y' then some ['i'] else if c = 'z' then some ['z']
  else none

/-- One insertion step of the stable descending sort below: place `x`
before the first element whose score is not larger, so that elements with
equal scores keep their original relative order. -/
def insertByScoreDesc (x : Word × ℚ) : List (Word × ℚ) → List (Word × ℚ)
  | [] => [x]
  | y :: t => if y.2 ≤ x.2 then x :: y :: t else y :: insertByScoreDesc x t

/-- Python `list.sort(key=lambda p; p[1], reverse=True)` as used in
`find_similar_words`: a stable sort by descending score (insertion sort,
which produces exactly the stable descending order Python guarantees). -/
def sortByScoreDesc : List (Word × ℚ) → List (Word × ℚ)
  | [] => []
  | x :: t => insertByScoreDesc x (sortByScoreDesc t)

/-- The `StandaloneLexicon` state: the rows `(word, pronunciation)` of the
sqlite `lexicon` table, and whether a G2P model file was found. -/
structure StandaloneLexicon where
  db : List (Word × Word)
  g2pAvailable : Bool

namespace StandaloneLexicon

/-- `StandaloneLexicon.exists_in_lexicon`:
`SELECT COUNT(*) FROM lexicon WHERE word = ? COLLATE NOCASE` on the
normalized word. -/
def existsInLexicon (L : StandaloneLexicon) (word : Word) : Bool :=
  let normalized := normalizeWord word
  L.db.any (fun row => nocaseEq row.1 normalized)

/-- `StandaloneLexicon.get_pronunciations` (via `_load_word_to_cache`):
every matching row's pronunciation string split on whitespace, `[]` when no
row matches. -/
def getPronunciations (L : StandaloneLexicon) (word : Word) : List (List Word) :=
  let normalized := normalizeWord word
  (L.db.filter (fun row => nocaseEq row.1 normalized)).map (fun row => splitWs row.2)

/-- `StandaloneLexicon._simulate_g2p`: map each letter through the phoneme
table, splitting multi-phoneme entries; `none` when no phoneme results. -/
def simulateG2p (word : Word) : Option G2PResult :=
  let phonemes :=
    ((pyLower word).map (fun c =>
      match phonemeMapFind c with
      | some s => splitWs s
      | none => [])).flatten
  if phonemes.isEmpty then none
  else some { word := word, pronunciation := phonemes, confidence := 7/10 }

/-- `StandaloneLexicon.predict_with_g2p`: `none` when no G2P model is
available, otherwise the simulated G2P result on the normalized word. -/
def predictWithG2p (L : StandaloneLexicon) (word : Word) : Option G2PResult :=
  if !L.g2pAvailable then none
  else simulateG2p (normalizeWord word)

/-- `StandaloneLexicon.find_similar_words`: candidates are the first 100
distinct words matching the two-character prefix `LIKE` pattern; each
candidate different (case-insensitively) from the normalized target is
scored, kept when strictly above `0.5`, sorted by descending score with
Python's stable sort, and truncated to `max_results`. -/
def findSimilarWords (L : StandaloneLexicon) (targetWord : Word)
    (maxResults : Nat) : List (Word × ℚ) :=
  let targetNormalized := normalizeWord targetWord
  if targetNormalized.length < 2 then []
  else
    let prefixQuery := targetNormalized.take 2 ++ ['%']
    let candidates :=
      (dedupFirst ((L.db.map (fun row => row.1)).filter (fun w => likeMatch prefixQuery w))).take 100
    let similarWords := candidates.filterMap (fun candidate =>
      if pyLower candidate ≠ targetNormalized then
        let similarity := calculateSimilarity targetNormalized (pyLower candidate)
        if similarity > 1/2 then some (candidate, similarity) else none
      else none)
    (sortByScoreDesc similarWords).take maxResults

/-- `StandaloneLexicon.validate_word_components` tokenization: split the
lowercased entity name on runs of underscore, hyphen and whitespace and drop
empty tokens. `predict_entity` consumes only the `"word"` field of each
component dictionary, so the embedding returns the token list. -/
def validateWordComponents (name : Word) : List Word :=
  ((pyLower name).splitOnP isSep).filter (fun w => !w.isEmpty)

end StandaloneLexicon

/-! ## SpeechToPhrasePredictor (`predictor.py`) -/

/-- `RecognitionConfidence` from `predictor.py`. -/
inductive RecognitionConfidence where
  | excellent
  | good
  | moderate
  | poor
  | unknown
deriving DecidableEq, Repr

/-- `WordPrediction` from `predictor.py`. -/
structure WordPrediction where
  word : Word
  confidence : RecognitionConfidence
  confidence_score : ℚ
  in_lexicon : Bool
  lexicon_pronunciations : List (List Word)
  g2p_available : Bool
  g2p_pronunciation : Option (List Word)
  g2p_confidence : Option ℚ
  similar_words : List (Word × ℚ)
  recommendation : String
  notes : List String
deriving DecidableEq, Repr

/-- `EntityPrediction` from `predictor.py`. -/
structure EntityPrediction where
  entity_name : Word
  word_predictions : List WordPrediction
  overall_confidence : RecognitionConfidence
  overall_score : ℚ
  recognition_percentage : ℚ
  recommendations : List String
  suggested_alternatives : List String
deriving DecidableEq, Repr

/-- `SpeechToPhrasePredictor._calculate_confidence_level`. -/
def calculateConfidenceLevel (score : ℚ) : RecognitionConfidence :=
  if score ≥ 95/100 then .excellent
  else if score ≥ 70/100 then .good
  else if score ≥ 50/100 then .moderate
  else if score ≥ 25/100 then .poor
  else .unknown

/-- Python truthiness of the optional `g2p_confidence` float
(`None` and `0.0` are falsy). -/
def confTruthy (q : Option ℚ) : Bool :=
  match q with
  | none => false
  | some x => decide (x ≠ 0)

/-- Python `f"{q:.0%}"` on a score: the percentage rounded to an integer
(modelled with round-half-up; the source formatting rounds half to even,
which differs only at exact half-percent values). -/
def formatPercent (q : ℚ) : String := toString (round (q * 100)) ++ "%"

/-- `SpeechToPhrasePredictor._generate_word_recommendation`. -/
def generateWordRecommendation (p : WordPrediction) : String :=
  if p.in_lexicon then
    "✅ Ottimale - Riconosciuta perfettamente da Speech-to-Phrase"
  else if p.g2p_available && confTruthy p.g2p_confidence &&
      (match p.g2p_confidence with | some c => decide (c > 7/10) | none => false) then
    "🔍 Buona - Pronuncia stimata con alta confidenza"
  else if p.g2p_available && confTruthy p.g2p_confidence &&
      (match p.g2p_confidence with | some c => decide (c > 1/2) | none => false) then
    "⚠️ Media - Pronuncia stimata, testare accuratezza vocale"
  else
    match p.similar_words with
    | best :: _ =>
      "💡 Suggerimento - Considera \x27" ++ String.mk best.1 ++
        "\x27 (similarità " ++ formatPercent best.2 ++ ")"
    | [] => "❌ Problematica - Difficilmente riconoscibile, rinominare consigliato"

/-- The lexicon interface consumed by the predictor (the methods of
`self._lexicon` that `predict_word` / `predict_entity` call); each call may
fail with an internal error, which the predictor must catch. -/
structure LexiconOps where
  existsInLexicon : Word → Except String Bool
  getPronunciations : Word → Except String (List (List Word))
  predictWithG2p : Word → Except String (Option G2PResult)
  findSimilarWords : Word → Except String (List (Word × ℚ))
  validateWordComponents : Word → Except String (List Word)

/-- The final record assembly at the end of `predict_word`: compute the
confidence level, build the `WordPrediction` with an empty recommendation,
then fill the recommendation from the built record. -/
def finishPrediction (word : Word) (in_lexicon : Bool)
    (lexicon_pronunciations : List (List Word)) (g2p_available : Bool)
    (g2p_pronunciation : Option (List Word)) (g2p_confidence : Option ℚ)
    (similar_words : List (Word × ℚ)) (confidence_score : ℚ)
    (notes : List String) : WordPrediction :=
  let pred : WordPrediction :=
    { word := word
      confidence := calculateConfidenceLevel confidence_score
      confidence_score := confidence_score
      in_lexicon := in_lexicon
      lexicon_pronunciations := lexicon_pronunciations
      g2p_available := g2p_available
      g2p_pronunciation := g2p_pronunciation
      g2p_confidence := g2p_confidence
      similar_words := similar_words
      recommendation := ""
      notes := notes }
  { pred with recommendation := generateWordRecommendation pred }

/-- The `try` block of `SpeechToPhrasePredictor.predict_word`: lexicon
check, G2P fallback, similarity boost. -/
def predictWordBody (ops : LexiconOps) (word : Word) : Except String WordPrediction := do
  let in_lexicon ← ops.existsInLexicon word
  if in_lexicon then
    let lexicon_pronunciations ← ops.getPronunciations word
    let confidence_score : ℚ := 1
    let notes := ["Parola presente nel lessico con " ++
      toString lexicon_pronunciations.length ++ " pronuncia/e"]
    pure (finishPrediction word true lexicon_pronunciations false none none [] confidence_score notes)
  else
    let g2p_result ← ops.predictWithG2p word
    let g2p_available := g2p_result.isSome
    let (g2p_pronunciation, g2p_confidence, confidence_score, notes) :=
      match g2p_result with
      | some r => (some r.pronunciation, some r.confidence, r.confidence,
          ["Pronuncia stimata tramite modello G2P"])
      | none => (none, none, (0 : ℚ),
          ["Parola non trovata nel lessico e G2P non disponibile"])
    let similar_words ← ops.findSimilarWords word
    let (confidence_score, notes) :=
      match similar_words with
      | [] => (confidence_score, notes)
      | top :: _ =>
        (min 1 (confidence_score + top.2 * (3/10)),
          notes ++ ["Trovate " ++ toString similar_words.length ++ " parole simili"])
    pure (finishPrediction word false [] g2p_available g2p_pronunciation g2p_confidence
      similar_words confidence_score notes)

/-- The fallback `WordPrediction` built in the `except` clause of
`predict_word`. -/
def errorWordPrediction (word : Word) (e : String) : WordPrediction :=
  { word := word
    confidence := .unknown
    confidence_score := 0
    in_lexicon := false
    lexicon_pronunciations := []
    g2p_available := false
    g2p_pronunciation := none
    g2p_confidence := none
    similar_words := []
    recommendation := "❌ Errore durante analisi"
    notes := ["Errore: " ++ e] }

/-- `SpeechToPhrasePredictor.predict_word`: the `try` body with the
`except` clause that downgrades any internal error to the fallback
prediction. -/
def predictWord (ops : LexiconOps) (word : Word) : WordPrediction :=
  match predictWordBody ops word with
  | .ok p => p
  | .error e => errorWordPrediction word e

/-- `SpeechToPhrasePredictor._generate_entity_recommendations`. -/
def generateEntityRecommendations (word_predictions : List WordPrediction)
    (overall_score : ℚ) : List String :=
  let unknown_words := word_predictions.filter (fun wp => decide (wp.confidence = .unknown))
  let poor_words := word_predictions.filter (fun wp => decide (wp.confidence = .poor))
  let g2p_words := word_predictions.filter (fun wp => wp.g2p_available && !wp.in_lexicon)
  ((if !unknown_words.isEmpty then
      ["⚠️ " ++ toString unknown_words.length ++ " parole non riconoscibili: " ++
        String.intercalate ", " (unknown_words.map (fun wp => String.mk wp.word))]
    else [])
  ++ (if !poor_words.isEmpty then
      ["📝 " ++ toString poor_words.length ++ " parole problematiche, considera rinominare"]
    else [])
  ++ (if !g2p_words.isEmpty then
      ["🧪 " ++ toString g2p_words.length ++ " parole usano pronuncia stimata - testare accuratezza"]
    else []))
  ++ [if overall_score ≥ 9/10 then "✅ Entità eccellente per Speech-to-Phrase"
      else if overall_score ≥ 7/10 then "👍 Entità buona, funzionerà bene"
      else if overall_score ≥ 1/2 then "⚠️ Entità mediocre, possibili problemi di riconoscimento"
      else "❌ Entità problematica, rinominare fortemente consigliato"]

set_option linter.unusedVariables false in
/-- Python `str.replace`: replace every occurrence of a non-empty pattern. -/
def replaceAll (s pat rep : Word) : Word :=
  if h : pat.isEmpty then s
  else
    match s with
    | [] => []
    | c :: t =>
      if pat.isPrefixOf (c :: t) then rep ++ replaceAll ((c :: t).drop pat.length) pat rep
      else c :: replaceAll t pat rep
termination_by s.length
decreasing_by
  all_goals simp only [List.length_drop, List.length_cons]
  · have hp : 0 < pat.length := by
      cases pat with
      | nil => simp at h
      | cons a l => simp
    omega
  · omega

/-- `SpeechToPhrasePredictor._suggest_entity_alternatives`. -/
def suggestEntityAlternatives (entity_name : Word)
    (word_predictions : List WordPrediction) : List String :=
  let alternatives := word_predictions.filterMap (fun wp =>
    if wp.confidence = .poor ∨ wp.confidence = .unknown then
      match wp.similar_words with
      | best :: _ =>
        some (String.mk (replaceAll entity_name wp.word best.1) ++
          " (sostituisci \x27" ++ String.mk wp.word ++ "\x27 → \x27" ++
          String.mk best.1 ++ "\x27)")
      | [] => none
    else none)
  let alternatives := alternatives ++
    (if word_predictions.length > 2 then
      ["Considera abbreviazioni: es. \x27luce_soggiorno\x27 → \x27luce_sala\x27"]
    else [])
  let alternatives := alternatives ++
    (if word_predictions.any (fun wp => wp.word.contains '_') then
      ["Evita underscore: usa trattini o spazi"]
    else [])
  alternatives.take 3

/-- The `try` block of `SpeechToPhrasePredictor.predict_entity`. -/
def predictEntityBody (ops : LexiconOps) (entity_name : Word) :
    Except String EntityPrediction := do
  let word_components ← ops.validateWordComponents entity_name
  let word_predictions := word_components.map (predictWord ops)
  let total_score := word_predictions.foldl (fun acc wp => acc + wp.confidence_score) 0
  let overall_score : ℚ :=
    if !word_predictions.isEmpty then total_score / (word_predictions.length : ℚ) else 0
  let recognition_percentage : ℚ :=
    if !word_predictions.isEmpty then
      ((word_predictions.countP (fun wp => decide (wp.confidence_score ≥ 7/10)) : ℚ) /
        (word_predictions.length : ℚ)) * 100
    else 0
  let overall_confidence := calculateConfidenceLevel overall_score
  let recommendations := generateEntityRecommendations word_predictions overall_score
  let alternatives := suggestEntityAlternatives entity_name word_predictions
  pure
    { entity_name := entity_name
      word_predictions := word_predictions
      overall_confidence := overall_confidence
      overall_score := overall_score
      recognition_percentage := recognition_percentage
      recommendations := recommendations
      suggested_alternatives := alternatives }

/-- `SpeechToPhrasePredictor.predict_entity` with its `except` fallback. -/
def predictEntity (ops : LexiconOps) (entity_name : Word) : EntityPrediction :=
  match predictEntityBody ops entity_name with
  | .ok p => p
  | .error e =>
    { entity_name := entity_name
      word_predictions := []
      overall_confidence := .unknown
      overall_score := 0
      recognition_percentage := 0
      recommendations := ["Errore durante analisi: " ++ e]
      suggested_alternatives := [] }

/-- The `LexiconOps` interface as implemented by a `StandaloneLexicon`
(the configuration `predictor.py` actually runs with): every operation is
total and succeeds. -/
def StandaloneLexicon.ops (L : StandaloneLexicon) : LexiconOps where
  existsInLexicon w := .ok (L.existsInLexicon w)
  getPronunciations w := .ok (L.getPronunciations w)
  predictWithG2p w := .ok (L.predictWithG2p w)
  findSimilarWords w := .ok (L.findSimilarWords w 5)
  validateWordComponents w := .ok (StandaloneLexicon.validateWordComponents w)

/-- The base confidence score in the not-in-lexicon branch of
`predict_word`, before the similarity boost: the G2P confidence when a G2P
guess is available, `0.0` otherwise. -/
def g2pBaseScore (L : StandaloneLexicon) (word : Word) : ℚ :=
  match L.predictWithG2p word with
  | some r => r.confidence
  | none => 0

/-! ## Helper lemmas -/

theorem toLower_ofNat_letter (n : ℕ) (h1 : 65 ≤ n) (h2 : n ≤ 90) :
    (Char.ofNat (n + 32)).toLower = Char.ofNat (n + 32) := by
  interval_cases n <;> decide

theorem toLower_toLower (c : Char) : c.toLower.toLower = c.toLower := by
  by_cases h : c.toNat ≥ 65 ∧ c.toNat ≤ 90
  · have hc : c.toLower = Char.ofNat (c.toNat + 32) := by
      show (if c.toNat ≥ 65 ∧ c.toNat ≤ 90 then Char.ofNat (c.toNat + 32) else c) = _
      rw [if_pos h]
    rw [hc]
    exact toLower_ofNat_letter c.toNat h.1 h.2
  · have hc : c.toLower = c := by
      show (if c.toNat ≥ 65 ∧ c.toNat ≤ 90 then Char.ofNat (c.toNat + 32) else c) = c
      rw [if_neg h]
    rw [hc]
    exact hc

theorem pyLower_idem (w : Word) : pyLower (pyLower w) = pyLower w := by
  unfold pyLower
  rw [List.map_map]
  apply List.map_congr_left
  intro c _
  exact toLower_toLower c

theorem normalizeWord_idem (w : Word) :
    normalizeWord (normalizeWord w) = normalizeWord w := by
  unfold normalizeWord
  have h1 : pyLower ((pyLower w).filter (fun c => !isSep c)) =
      (pyLower w).filter (fun c => !isSep c) := by
    unfold pyLower
    conv_rhs => rw [← List.map_id ((List.map Char.toLower w).filter (fun c => !isSep c))]
    apply List.map_congr_left
    intro x hx
    have hx2 : x ∈ List.map Char.toLower w := List.mem_of_mem_filter hx
    obtain ⟨c, _, rfl⟩ := List.mem_map.mp hx2
    exact toLower_toLower c
  rw [h1, List.filter_filter]
  congr 1
  funext c
  cases isSep c <;> rfl

theorem levenshtein_cast_nonneg (w1 w2 : Word) :
    (0 : ℚ) ≤ (levenshtein w1 w2 : ℚ) := by
  exact_mod_cast Nat.zero_le _

theorem calculateSimilarity_le_one (w1 w2 : Word) :
    StandaloneLexicon.calculateSimilarity w1 w2 ≤ 1 := by
  unfold StandaloneLexicon.calculateSimilarity
  split
  · split <;> norm_num
  · split
    · norm_num
    · dsimp only
      split
      · norm_num
      · apply max_le
        · norm_num
        · have hd : (0 : ℚ) ≤ (levenshtein w1 w2 : ℚ) / ((max w1.length w2.length : ℕ) : ℚ) := by
            apply div_nonneg (levenshtein_cast_nonneg w1 w2)
            exact_mod_cast Nat.zero_le _
          linarith

theorem dedupFirstAux_subset {α} [DecidableEq α] (seen : List α) (l : List α) :
    ∀ a, a ∈ dedupFirstAux seen l → a ∈ l := by
  induction l generalizing seen with
  | nil => intro a ha; simp [dedupFirstAux] at ha
  | cons b t ih =>
    intro a ha
    unfold dedupFirstAux at ha
    by_cases hb : b ∈ seen
    · rw [if_pos hb] at ha
      exact List.mem_cons_of_mem b (ih seen a ha)
    · rw [if_neg hb] at ha
      rcases List.mem_cons.mp ha with h | h
      · exact h ▸ List.mem_cons_self a t
      · exact List.mem_cons_of_mem b (ih (b :: seen) a h)

theorem dedupFirst_subset {α} [DecidableEq α] (l : List α) :
    ∀ a, a ∈ dedupFirst l → a ∈ l :=
  dedupFirstAux_subset [] l

theorem dedupFirst_cons {α} [DecidableEq α] (a : α) (l : List α) :
    dedupFirst (a :: l) = a :: dedupFirstAux [a] l := by
  conv_lhs => unfold dedupFirst dedupFirstAux
  rw [if_neg (List.not_mem_nil a)]

theorem mem_insertByScoreDesc {a x : Word × ℚ} {l : List (Word × ℚ)} :
    a ∈ insertByScoreDesc x l ↔ a = x ∨ a ∈ l := by
  induction l with
  | nil => simp [insertByScoreDesc]
  | cons y t ih =>
    rw [insertByScoreDesc]
    by_cases h : y.2 ≤ x.2
    · rw [if_pos h]
      simp [List.mem_cons]
    · rw [if_neg h]
      simp only [List.mem_cons, ih]
      tauto

theorem mem_sortByScoreDesc {a : Word × ℚ} {l : List (Word × ℚ)} :
    a ∈ sortByScoreDesc l ↔ a ∈ l := by
  induction l with
  | nil => simp [sortByScoreDesc]
  | cons y t ih =>
    rw [sortByScoreDesc]
    simp only [mem_insertByScoreDesc, ih, List.mem_cons]

theorem pairwise_insertByScoreDesc (x : Word × ℚ) (l : List (Word × ℚ))
    (hl : l.Pairwise (fun a b => b.2 ≤ a.2)) :
    (insertByScoreDesc x l).Pairwise (fun a b => b.2 ≤ a.2) := by
  induction l with
  | nil => simp [insertByScoreDesc]
  | cons y t ih =>
    rw [insertByScoreDesc]
    rcases List.pairwise_cons.mp hl with ⟨hy, ht⟩
    by_cases h : y.2 ≤ x.2
    · rw [if_pos h]
      refine List.pairwise_cons.mpr ⟨?_, hl⟩
      intro b hb
      rcases List.mem_cons.mp hb with rfl | hb
      · exact h
      · exact le_trans (hy b hb) h
    · rw [if_neg h]
      refine List.pairwise_cons.mpr ⟨?_, ih ht⟩
      intro b hb
      rcases mem_insertByScoreDesc.mp hb with rfl | hb
      · exact le_of_lt (lt_of_not_le h)
      · exact hy b hb

theorem pairwise_sortByScoreDesc (l : List (Word × ℚ)) :
    (sortByScoreDesc l).Pairwise (fun a b => b.2 ≤ a.2) := by
  induction l with
  | nil => exact List.Pairwise.nil
  | cons y t ih =>
    rw [sortByScoreDesc]
    exact pairwise_insertByScoreDesc y (sortByScoreDesc t) ih

theorem mem_findSimilarWords {L : StandaloneLexicon} {target : Word} {n : ℕ}
    {p : Word × ℚ} (hp : p ∈ L.findSimilarWords target n) :
    p.1 ∈ L.db.map (fun row => row.1) ∧
    pyLower p.1 ≠ normalizeWord target ∧
    p.2 = StandaloneLexicon.calculateSimilarity (normalizeWord target) (pyLower p.1) ∧
    1/2 < p.2 := by
  unfold StandaloneLexicon.findSimilarWords at hp
  dsimp only at hp
  split at hp
  · simp at hp
  · have hp2 := mem_sortByScoreDesc.mp ((List.take_sublist n _).subset hp)
    obtain ⟨c, hc, hfc⟩ := List.mem_filterMap.mp hp2
    have hcdb : c ∈ L.db.map (fun row => row.1) :=
      (List.mem_filter.mp
        (dedupFirst_subset _ c ((List.take_sublist 100 _).subset hc))).1
    by_cases hne : pyLower c ≠ normalizeWord target
    · rw [if_pos hne] at hfc
      by_cases hgt :
          StandaloneLexicon.calculateSimilarity (normalizeWord target) (pyLower c) > 1/2
      · rw [if_pos hgt] at hfc
        obtain rfl := Option.some_injective _ hfc
        exact ⟨hcdb, hne, rfl, hgt⟩
      · rw [if_neg hgt] at hfc
        exact absurd hfc (Option.some_ne_none _).symm
    · rw [if_neg hne] at hfc
      exact absurd hfc (Option.some_ne_none _).symm

theorem findSimilarWords_sorted (L : StandaloneLexicon) (target : Word) (n : ℕ) :
    (L.findSimilarWords target n).Pairwise (fun a b => b.2 ≤ a.2) := by
  unfold StandaloneLexicon.findSimilarWords
  dsimp only
  split
  · exact List.Pairwise.nil
  · exact List.Pairwise.sublist (List.take_sublist n _) (pairwise_sortByScoreDesc _)

theorem findSimilarWords_length_le (L : StandaloneLexicon) (target : Word) (n : ℕ) :
    (L.findSimilarWords target n).length ≤ n := by
  unfold StandaloneLexicon.findSimilarWords
  dsimp only
  split
  · simp
  · rw [List.length_take]
    exact min_le_left n _

theorem findSimilarWords_empty_of_no_match (L : StandaloneLexicon) (target : Word) (n : ℕ)
    (h : ∀ row ∈ L.db,
      StandaloneLexicon.calculateSimilarity (normalizeWord target) (pyLower row.1) ≤ 1/2) :
    L.findSimilarWords target n = [] := by
  unfold StandaloneLexicon.findSimilarWords
  dsimp only
  split
  · rfl
  · have hnil : (List.filterMap (fun candidate =>
        if pyLower candidate ≠ normalizeWord target then
          if StandaloneLexicon.calculateSimilarity (normalizeWord target) (pyLower candidate) > 1/2 then
            some (candidate, StandaloneLexicon.calculateSimilarity (normalizeWord target) (pyLower candidate))
          else none
        else none)
        ((dedupFirst ((L.db.map (fun row => row.1)).filter
          (fun w => likeMatch (List.take 2 (normalizeWord target) ++ ['%']) w))).take 100)) = [] := by
      rw [List.filterMap_eq_nil_iff]
      intro c hc
      have hcdb := (List.mem_filter.mp
        (dedupFirst_subset _ c ((List.take_sublist 100 _).subset hc))).1
      obtain ⟨row, hrow, rfl⟩ := List.mem_map.mp hcdb
      by_cases hne : pyLower row.1 ≠ normalizeWord target
      · rw [if_pos hne]
        rw [if_neg (not_lt.mpr (h row hrow))]
      · rw [if_neg hne]
    rw [hnil]
    simp [sortByScoreDesc]

theorem findSimilarWords_empty_db (L : StandaloneLexicon) (target : Word) (n : ℕ)
    (h : L.db = []) : L.findSimilarWords target n = [] := by
  apply findSimilarWords_empty_of_no_match
  rw [h]
  intro row hrow
  simp at hrow

theorem predictWord_inLexicon (L : StandaloneLexicon) (w : Word)
    (h : L.existsInLexicon w = true) :
    predictWord L.ops w =
      finishPrediction w true (L.getPronunciations w) false none none [] 1
        ["Parola presente nel lessico con " ++
          toString (L.getPronunciations w).length ++ " pronuncia/e"] := by
  unfold predictWord predictWordBody StandaloneLexicon.ops
  simp [h, bind, Except.bind, pure, Except.pure]

set_option linter.unnecessarySeqFocus false in
theorem predictWord_notInLexicon_score (L : StandaloneLexicon) (w : Word)
    (h : L.existsInLexicon w = false) :
    (predictWord L.ops w).confidence_score =
      match L.findSimilarWords w 5 with
      | [] => g2pBaseScore L w
      | top :: _ => min 1 (g2pBaseScore L w + top.2 * (3/10)) := by
  unfold predictWord predictWordBody StandaloneLexicon.ops g2pBaseScore
  cases hg : L.predictWithG2p w <;>
    cases hs : L.findSimilarWords w 5 <;>
      simp [h, hg, hs, bind, Except.bind, pure, Except.pure, finishPrediction]

theorem predictWithG2p_confidence (L : StandaloneLexicon) (w : Word) (r : G2PResult)
    (h : L.predictWithG2p w = some r) : r.confidence = 7/10 := by
  unfold StandaloneLexicon.predictWithG2p StandaloneLexicon.simulateG2p at h
  split at h
  · exact absurd h (by simp)
  · dsimp only at h
    split at h
    · exact absurd h (by simp)
    · have he := Option.some_injective _ h
      rw [← he]

theorem g2pBaseScore_cases (L : StandaloneLexicon) (w : Word) :
    g2pBaseScore L w = 0 ∨ g2pBaseScore L w = 7/10 := by
  unfold g2pBaseScore
  cases hg : L.predictWithG2p w with
  | none => simp
  | some r => simp [predictWithG2p_confidence L w r hg]

theorem g2pBaseScore_nonneg (L : StandaloneLexicon) (w : Word) :
    0 ≤ g2pBaseScore L w := by
  rcases g2pBaseScore_cases L w with h | h
  all_goals rw [h]
  all_goals norm_num

theorem predictWord_score_bounds (L : StandaloneLexicon) (w : Word) :
    0 ≤ (predictWord L.ops w).confidence_score ∧
    (predictWord L.ops w).confidence_score ≤ 1 := by
  by_cases h : L.existsInLexicon w
  · rw [predictWord_inLexicon L w h]
    constructor <;> norm_num [finishPrediction]
  · rw [predictWord_notInLexicon_score L w (Bool.not_eq_true _ ▸ eq_false_of_ne_true h)]
    cases hs : L.findSimilarWords w 5 with
    | nil =>
      rcases g2pBaseScore_cases L w with hg | hg <;> rw [hg] <;> norm_num
    | cons top rest =>
      have htop := mem_findSimilarWords (hs ▸ List.mem_cons_self top rest)
      have h1 : (1 : ℚ)/2 < top.2 := htop.2.2.2
      constructor
      · apply le_min
        · norm_num
        · have := g2pBaseScore_nonneg L w
          nlinarith
      · exact min_le_left _ _

theorem foldl_add_confidence (l : List WordPrediction) (a : ℚ) :
    l.foldl (fun acc wp => acc + wp.confidence_score) a =
      a + (l.map (fun wp => wp.confidence_score)).sum := by
  induction l generalizing a with
  | nil => simp
  | cons wp t ih => simp [ih, add_assoc]

theorem predictEntity_ops_fields (L : StandaloneLexicon) (name : Word) :
    (predictEntity L.ops name).overall_score =
      (if !((StandaloneLexicon.validateWordComponents name).map (predictWord L.ops)).isEmpty then
        (((StandaloneLexicon.validateWordComponents name).map (predictWord L.ops)).foldl
            (fun acc wp => acc + wp.confidence_score) 0) /
          (((StandaloneLexicon.validateWordComponents name).map (predictWord L.ops)).length : ℚ)
      else 0) ∧
    (predictEntity L.ops name).recognition_percentage =
      (if !((StandaloneLexicon.validateWordComponents name).map (predictWord L.ops)).isEmpty then
        ((((StandaloneLexicon.validateWordComponents name).map (predictWord L.ops)).countP
            (fun wp => decide (wp.confidence_score ≥ 7/10)) : ℚ) /
          (((StandaloneLexicon.validateWordComponents name).map (predictWord L.ops)).length : ℚ)) * 100
      else 0) := by
  exact ⟨rfl, rfl⟩


/-! ## Claims -/

/-- C2: for every word `w` with `exists(w)` true, `predict_word(w)` returns
confidence_score 1.0, tier EXCELLENT, in_lexicon true, pronunciations
populated from the lexicon, no G2P estimation (fields absent) and no
similarity ranking (similar_words empty). -/
theorem c2_in_lexicon_excellent (L : StandaloneLexicon) (w : Word)
    (h : L.existsInLexicon w = true) :
    (predictWord L.ops w).confidence_score = 1 ∧
    (predictWord L.ops w).confidence = RecognitionConfidence.excellent ∧
    (predictWord L.ops w).in_lexicon = true ∧
    (predictWord L.ops w).lexicon_pronunciations = L.getPronunciations w ∧
    (predictWord L.ops w).g2p_available = false ∧
    (predictWord L.ops w).g2p_pronunciation = none ∧
    (predictWord L.ops w).g2p_confidence = none ∧
    (predictWord L.ops w).similar_words = [] := by
  rw [predictWord_inLexicon L w h]
  refine ⟨rfl, ?_, rfl, rfl, rfl, rfl, rfl, rfl⟩
  show calculateConfidenceLevel 1 = RecognitionConfidence.excellent
  with_unfolding_all rfl

/-- Witness for C2 at the lexicon `{casa}` and the query `CASA`. -/
theorem c2_witness :
    (predictWord (StandaloneLexicon.ops ⟨[(['c','a','s','a'], ['k',' ','a'])], false⟩)
        ['C','A','S','A']).confidence_score = 1 ∧
    (predictWord (StandaloneLexicon.ops ⟨[(['c','a','s','a'], ['k',' ','a'])], false⟩)
        ['C','A','S','A']).confidence = RecognitionConfidence.excellent ∧
    (predictWord (StandaloneLexicon.ops ⟨[(['c','a','s','a'], ['k',' ','a'])], false⟩)
        ['C','A','S','A']).in_lexicon = true ∧
    (predictWord (StandaloneLexicon.ops ⟨[(['c','a','s','a'], ['k',' ','a'])], false⟩)
        ['C','A','S','A']).lexicon_pronunciations =
      StandaloneLexicon.getPronunciations ⟨[(['c','a','s','a'], ['k',' ','a'])], false⟩
        ['C','A','S','A'] ∧
    (predictWord (StandaloneLexicon.ops ⟨[(['c','a','s','a'], ['k',' ','a'])], false⟩)
        ['C','A','S','A']).g2p_available = false ∧
    (predictWord (StandaloneLexicon.ops ⟨[(['c','a','s','a'], ['k',' ','a'])], false⟩)
        ['C','A','S','A']).g2p_pronunciation = none ∧
    (predictWord (StandaloneLexicon.ops ⟨[(['c','a','s','a'], ['k',' ','a'])], false⟩)
        ['C','A','S','A']).g2p_confidence = none ∧
    (predictWord (StandaloneLexicon.ops ⟨[(['c','a','s','a'], ['k',' ','a'])], false⟩)
        ['C','A','S','A']).similar_words = [] :=
  c2_in_lexicon_excellent ⟨[(['c','a','s','a'], ['k',' ','a'])], false⟩ ['C','A','S','A']
    (by decide)

/-- C4: for every word not in the lexicon for which the similarity ranker
returns at least one result, the final confidence score is
`min(1.0, base + topSimilarity * 0.3)`, where `base` is the G2P confidence
when a G2P guess is available and `0.0` otherwise. -/
theorem c4_similarity_boost (L : StandaloneLexicon) (w : Word) (top : Word × ℚ)
    (rest : List (Word × ℚ)) (h1 : L.existsInLexicon w = false)
    (h2 : L.findSimilarWords w 5 = top :: rest) :
    (predictWord L.ops w).confidence_score = min 1 (g2pBaseScore L w + top.2 * (3/10)) := by
  rw [predictWord_notInLexicon_score L w h1, h2]

/-- Witness for C4: `cana` against the lexicon `{casa, caso}` with G2P
available; the only similar word is `casa` at similarity `3/4`. -/
theorem c4_witness :
    (predictWord (StandaloneLexicon.ops
        ⟨[(['c','a','s','a'], ['k',' ','a']), (['c','a','s','o'], ['k',' ','o'])], true⟩)
        ['c','a','n','a']).confidence_score =
      min 1 (g2pBaseScore
          ⟨[(['c','a','s','a'], ['k',' ','a']), (['c','a','s','o'], ['k',' ','o'])], true⟩
          ['c','a','n','a'] + (3/4) * (3/10)) :=
  c4_similarity_boost
    ⟨[(['c','a','s','a'], ['k',' ','a']), (['c','a','s','o'], ['k',' ','o'])], true⟩
    ['c','a','n','a'] (['c','a','s','a'], 3/4) [] (by with_unfolding_all rfl)
    (by with_unfolding_all rfl)

/-- C5 (amended): in `StandaloneLexicon._calculate_similarity` an empty
target or candidate always scores `0.0`, including when both are empty; in
the legacy `LexiconWrapper._calculate_similarity` an empty string against a
non-empty one scores `0.0`, but two empty strings score `1.0`. -/
theorem c5_empty_similarity (w : Word) :
    StandaloneLexicon.calculateSimilarity [] w = 0 ∧
    StandaloneLexicon.calculateSimilarity w [] = 0 ∧
    (w ≠ [] → LexiconWrapper.calculateSimilarity [] w = 0 ∧
      LexiconWrapper.calculateSimilarity w [] = 0) ∧
    LexiconWrapper.calculateSimilarity [] [] = 1 := by
  refine ⟨?_, ?_, ?_, by decide⟩
  · cases w <;> simp [StandaloneLexicon.calculateSimilarity]
  · cases w <;> simp [StandaloneLexicon.calculateSimilarity]
  · intro hw
    have hlen : 0 < w.length := List.length_pos.mpr hw
    have hne : w.length ≠ 0 := Nat.pos_iff_ne_zero.mp hlen
    constructor
    · simp [LexiconWrapper.calculateSimilarity, hlen]
    · simp [LexiconWrapper.calculateSimilarity, hne]

/-- Counterexample for C5: the legacy wrapper similarity of two empty
strings is `1.0`, not `0.0` as the claim states. -/
theorem c5_counterexample :
    LexiconWrapper.calculateSimilarity [] [] = 1 ∧
    LexiconWrapper.calculateSimilarity [] [] ≠ 0 :=
  ⟨by with_unfolding_all rfl, of_decide_eq_true (by with_unfolding_all rfl)⟩

/-- Witness for C5 at the non-empty word `x`. -/
theorem c5_witness :
    StandaloneLexicon.calculateSimilarity [] ['x'] = 0 ∧
    StandaloneLexicon.calculateSimilarity ['x'] [] = 0 ∧
    (LexiconWrapper.calculateSimilarity [] ['x'] = 0 ∧
      LexiconWrapper.calculateSimilarity ['x'] [] = 0) ∧
    LexiconWrapper.calculateSimilarity [] [] = 1 :=
  ⟨(c5_empty_similarity ['x']).1, (c5_empty_similarity ['x']).2.1,
   (c5_empty_similarity ['x']).2.2.1 (by decide), (c5_empty_similarity ['x']).2.2.2⟩

/-- C7: `predict_word` always returns a prediction: either the `try` body
succeeded and its value is returned unchanged, or the internal error was
caught and surfaced as an UNKNOWN-tier prediction with confidence_score 0.0
carrying an explanatory note. -/
theorem c7_error_handling (ops : LexiconOps) (word : Word) :
    predictWordBody ops word = Except.ok (predictWord ops word) ∨
    ((predictWord ops word).confidence = RecognitionConfidence.unknown ∧
     (predictWord ops word).confidence_score = 0 ∧
     (predictWord ops word).notes ≠ []) := by
  cases h : predictWordBody ops word with
  | ok p => left; rw [predictWord, h]
  | error e =>
    right
    rw [predictWord, h]
    exact ⟨rfl, rfl, by simp [errorWordPrediction]⟩

/-- C8: the `StandaloneLexicon` operations are invariant under
`normalize_word` (lowercasing and deleting underscores, hyphens and
whitespace): querying the normalized form gives the same result. -/
theorem c8_normalization_invariance (L : StandaloneLexicon) (w : Word) :
    L.existsInLexicon (normalizeWord w) = L.existsInLexicon w ∧
    L.getPronunciations (normalizeWord w) = L.getPronunciations w ∧
    L.predictWithG2p (normalizeWord w) = L.predictWithG2p w := by
  simp only [StandaloneLexicon.existsInLexicon, StandaloneLexicon.getPronunciations,
    StandaloneLexicon.predictWithG2p, normalizeWord_idem]
  exact ⟨trivial, trivial, trivial⟩

/-- C9: when the normalized target has fewer than two characters,
`find_similar_words` returns the empty sequence, whatever the vocabulary. -/
theorem c9_short_target_empty (L : StandaloneLexicon) (w : Word) (n : ℕ)
    (h : (normalizeWord w).length < 2) : L.findSimilarWords w n = [] := by
  unfold StandaloneLexicon.findSimilarWords
  dsimp only
  rw [if_pos h]

/-- Witness for C9 at the one-letter target `a`. -/
theorem c9_witness :
    StandaloneLexicon.findSimilarWords
      ⟨[(['c','a','s','a'], ['k',' ','a'])], false⟩ ['a'] 5 = [] :=
  c9_short_target_empty ⟨[(['c','a','s','a'], ['k',' ','a'])], false⟩ ['a'] 5 (by decide)



theorem wordVariations_head (w : Word) :
    ∃ t, LexiconWrapper.wordVariations w = w :: t := by
  unfold LexiconWrapper.wordVariations
  rw [List.singleton_append, List.cons_append, List.cons_append, dedupFirst_cons]
  exact ⟨_, rfl⟩

theorem alistFind_some_mem_keys {dict : TextDict} {w : Word}
    {prons : List (List Word)} (h : alistFind dict w = some prons) :
    w ∈ wordKeys dict := by
  unfold alistFind at h
  obtain ⟨pair, hp, hv⟩ := Option.map_eq_some'.mp h
  have hmem := List.mem_of_find?_eq_some hp
  have hps := List.find?_some hp
  have hpw : pair.1 = w := of_decide_eq_true hps
  exact List.mem_map.mpr ⟨pair, hmem, hpw⟩

theorem alistFind_eq_none_of_not_mem {dict : TextDict} {u : Word}
    (h : u ∉ wordKeys dict) : alistFind dict u = none := by
  unfold alistFind
  rw [Option.map_eq_none', List.find?_eq_none]
  intro pair hpair hdec
  exact h (List.mem_map.mpr ⟨pair, hpair, of_decide_eq_true hdec⟩)

/-- C1 (amended): `exists(q)` is true exactly when one of the four case
variations generated from `q` (original, lowercase, uppercase, title case)
is a stored key; `lookup(q)` returns the pronunciation list of the first
stored variation in generation order (e.g. `lookup("casa")` returns the
list stored under `Casa` when `casa` and `CASA` are not stored); in
particular every stored word queried verbatim is found with its exact
stored pronunciation list. A mixed-case stored word is not found from a
query none of whose four variations equals it (see the counterexample). -/
theorem c1_case_variant_lookup (lines : List Word) (q w v : Word)
    (vs1 vs2 : List Word) (prons : List (List Word)) :
    (LexiconWrapper.wexists (loadTextLexicon lines) q = true ↔
      ∃ u, u ∈ LexiconWrapper.wordVariations q ∧
        u ∈ wordKeys (loadTextLexicon lines)) ∧
    (LexiconWrapper.wordVariations q = vs1 ++ v :: vs2 →
      (∀ u ∈ vs1, u ∉ wordKeys (loadTextLexicon lines)) →
      alistFind (loadTextLexicon lines) v = some prons →
      LexiconWrapper.wlookup (loadTextLexicon lines) q = prons ∧
      LexiconWrapper.wexists (loadTextLexicon lines) q = true) ∧
    (alistFind (loadTextLexicon lines) w = some prons →
      LexiconWrapper.wexists (loadTextLexicon lines) w = true ∧
      LexiconWrapper.wlookup (loadTextLexicon lines) w = prons) := by
  refine ⟨?_, ?_, ?_⟩
  · unfold LexiconWrapper.wexists
    rw [List.any_eq_true]
    constructor
    · rintro ⟨u, hu, hd⟩
      exact ⟨u, hu, of_decide_eq_true hd⟩
    · rintro ⟨u, hu, hk⟩
      exact ⟨u, hu, decide_eq_true hk⟩
  · intro hdecomp hnone hfound
    have hlook : (LexiconWrapper.wordVariations q).findSome?
        (fun u => alistFind (loadTextLexicon lines) u) = some prons := by
      rw [hdecomp, List.findSome?_append]
      have h1 : vs1.findSome? (fun u => alistFind (loadTextLexicon lines) u) = none := by
        rw [List.findSome?_eq_none_iff]
        intro u hu
        exact alistFind_eq_none_of_not_mem (hnone u hu)
      rw [h1]
      simp [List.findSome?_cons, hfound]
    constructor
    · unfold LexiconWrapper.wlookup
      rw [hlook]
    · unfold LexiconWrapper.wexists
      rw [List.any_eq_true]
      refine ⟨v, ?_, decide_eq_true (alistFind_some_mem_keys hfound)⟩
      rw [hdecomp]
      exact List.mem_append_right vs1 (List.mem_cons_self v vs2)
  · intro hfind
    have hkey := alistFind_some_mem_keys hfind
    obtain ⟨t, ht⟩ := wordVariations_head w
    constructor
    · unfold LexiconWrapper.wexists
      rw [List.any_eq_true]
      refine ⟨w, ?_, decide_eq_true hkey⟩
      rw [ht]
      exact List.mem_cons_self w t
    · unfold LexiconWrapper.wlookup
      rw [ht]
      simp [List.findSome?_cons, hfind]

/-- Counterexample for C1: with the loaded line `aB x` the stored word is
`aB`; its lowercased case variant `ab` is a query whose four generated
variations (`ab`, `AB`, `Ab`) never produce `aB`, so `exists` is false and
`lookup` is empty, where the claim requires true and `[[x]]`. -/
theorem c1_counterexample :
    wordKeys (loadTextLexicon [['a','B',' ','x']]) = [['a','B']] ∧
    pyLower ['a','B'] = ['a','b'] ∧
    LexiconWrapper.wexists (loadTextLexicon [['a','B',' ','x']]) ['a','b'] = false ∧
    LexiconWrapper.wlookup (loadTextLexicon [['a','B',' ','x']]) ['a','b'] = [] :=
  ⟨by decide, by decide, by decide, by decide⟩

/-- Witness for C1: against the loaded line `Casa k a`, the query `casa`
satisfies the exists-biconditional; its first stored variation is the
title-case `Casa` (the earlier variations `casa` and `CASA` are not
stored), whose pronunciation list `lookup("casa")` returns; and the
verbatim query `Casa` is found with its stored list. -/
theorem c1_witness :
    (LexiconWrapper.wexists (loadTextLexicon [['C','a','s','a',' ','k',' ','a']])
        ['c','a','s','a'] = true ↔
      ∃ u, u ∈ LexiconWrapper.wordVariations ['c','a','s','a'] ∧
        u ∈ wordKeys (loadTextLexicon [['C','a','s','a',' ','k',' ','a']])) ∧
    (LexiconWrapper.wlookup (loadTextLexicon [['C','a','s','a',' ','k',' ','a']])
        ['c','a','s','a'] = [[['k'],['a']]] ∧
      LexiconWrapper.wexists (loadTextLexicon [['C','a','s','a',' ','k',' ','a']])
        ['c','a','s','a'] = true) ∧
    (LexiconWrapper.wexists (loadTextLexicon [['C','a','s','a',' ','k',' ','a']])
        ['C','a','s','a'] = true ∧
      LexiconWrapper.wlookup (loadTextLexicon [['C','a','s','a',' ','k',' ','a']])
        ['C','a','s','a'] = [[['k'],['a']]]) :=
  ⟨(c1_case_variant_lookup [['C','a','s','a',' ','k',' ','a']] ['c','a','s','a']
      ['C','a','s','a'] ['C','a','s','a'] [['c','a','s','a'], ['C','A','S','A']] []
      [[['k'],['a']]]).1,
   (c1_case_variant_lookup [['C','a','s','a',' ','k',' ','a']] ['c','a','s','a']
      ['C','a','s','a'] ['C','a','s','a'] [['c','a','s','a'], ['C','A','S','A']] []
      [[['k'],['a']]]).2.1 (by decide) (by decide) (by decide),
   (c1_case_variant_lookup [['C','a','s','a',' ','k',' ','a']] ['c','a','s','a']
      ['C','a','s','a'] ['C','a','s','a'] [['c','a','s','a'], ['C','A','S','A']] []
      [[['k'],['a']]]).2.2 (by decide)⟩

/-- C3: for every entity name with a non-empty tokenization, the entity
prediction overall_score is the arithmetic mean of the per-token
confidence_scores and recognition_percentage is 100 times the fraction of
tokens scoring at least 0.7; a tokenization with zero tokens gives
overall_score 0. -/
theorem c3_entity_aggregation (L : StandaloneLexicon) (name : Word) :
    (StandaloneLexicon.validateWordComponents name ≠ [] →
      (predictEntity L.ops name).overall_score =
        ((StandaloneLexicon.validateWordComponents name).map
            (fun w => (predictWord L.ops w).confidence_score)).sum /
          ((StandaloneLexicon.validateWordComponents name).length : ℚ) ∧
      (predictEntity L.ops name).recognition_percentage =
        100 * (((StandaloneLexicon.validateWordComponents name).countP
            (fun w => decide ((predictWord L.ops w).confidence_score ≥ 7/10)) : ℕ) : ℚ) /
          ((StandaloneLexicon.validateWordComponents name).length : ℚ)) ∧
    (StandaloneLexicon.validateWordComponents name = [] →
      (predictEntity L.ops name).overall_score = 0) := by
  obtain ⟨hov, hrec⟩ := predictEntity_ops_fields L name
  constructor
  · intro hne
    have hm : ¬ (((StandaloneLexicon.validateWordComponents name).map
        (predictWord L.ops)).isEmpty = true) := by
      rw [List.isEmpty_iff, List.map_eq_nil_iff]
      exact hne
    have hmape := eq_false_of_ne_true hm
    constructor
    · rw [hov, hmape]
      simp only [Bool.not_false, if_true]
      rw [foldl_add_confidence, zero_add, List.map_map, List.length_map]
      rfl
    · rw [hrec, hmape]
      simp only [Bool.not_false, if_true]
      rw [List.countP_map, List.length_map]
      rw [show List.countP ((fun wp => decide (wp.confidence_score ≥ 7/10)) ∘
          predictWord L.ops) (StandaloneLexicon.validateWordComponents name) =
        (StandaloneLexicon.validateWordComponents name).countP
          (fun w => decide ((predictWord L.ops w).confidence_score ≥ 7/10)) from rfl]
      ring
  · intro hnil
    rw [hov, hnil]
    simp

/-- Witness for C3 at the lexicon `{casa}`, the entity `casa_zz`, and the
empty entity name (zero tokens). -/
theorem c3_witness :
    (predictEntity (StandaloneLexicon.ops ⟨[(['c','a','s','a'], ['k',' ','a'])], false⟩)
        ['c','a','s','a','_','z','z']).overall_score =
      ((StandaloneLexicon.validateWordComponents ['c','a','s','a','_','z','z']).map
          (fun w => (predictWord (StandaloneLexicon.ops
            ⟨[(['c','a','s','a'], ['k',' ','a'])], false⟩) w).confidence_score)).sum /
        ((StandaloneLexicon.validateWordComponents ['c','a','s','a','_','z','z']).length : ℚ) ∧
    (predictEntity (StandaloneLexicon.ops ⟨[(['c','a','s','a'], ['k',' ','a'])], false⟩)
        ['c','a','s','a','_','z','z']).recognition_percentage =
      100 * (((StandaloneLexicon.validateWordComponents ['c','a','s','a','_','z','z']).countP
          (fun w => decide ((predictWord (StandaloneLexicon.ops
            ⟨[(['c','a','s','a'], ['k',' ','a'])], false⟩) w).confidence_score ≥ 7/10)) : ℕ) : ℚ) /
        ((StandaloneLexicon.validateWordComponents ['c','a','s','a','_','z','z']).length : ℚ) ∧
    (predictEntity (StandaloneLexicon.ops ⟨[(['c','a','s','a'], ['k',' ','a'])], false⟩)
        []).overall_score = 0 :=
  ⟨((c3_entity_aggregation ⟨[(['c','a','s','a'], ['k',' ','a'])], false⟩
      ['c','a','s','a','_','z','z']).1 (by decide)).1,
   ((c3_entity_aggregation ⟨[(['c','a','s','a'], ['k',' ','a'])], false⟩
      ['c','a','s','a','_','z','z']).1 (by decide)).2,
   (c3_entity_aggregation ⟨[(['c','a','s','a'], ['k',' ','a'])], false⟩ []).2 (by decide)⟩

/-- C6 (amended): the similar-words ranking is sorted by descending score
(ties keep the stable candidate-scan order of the vocabulary, not lexical
order — see the counterexample), has at most maxResults entries, contains
only candidates whose lowercase differs from the normalized target with
score strictly above 0.5, and is empty when the vocabulary is empty or no
candidate scores above 0.5. -/
theorem c6_find_similar_contract (L : StandaloneLexicon) (target : Word) (n : ℕ) :
    (L.findSimilarWords target n).Pairwise (fun a b => b.2 ≤ a.2) ∧
    (L.findSimilarWords target n).length ≤ n ∧
    (∀ p ∈ L.findSimilarWords target n,
      pyLower p.1 ≠ normalizeWord target ∧ 1/2 < p.2) ∧
    (L.db = [] → L.findSimilarWords target n = []) ∧
    ((∀ row ∈ L.db,
        StandaloneLexicon.calculateSimilarity (normalizeWord target) (pyLower row.1) ≤ 1/2) →
      L.findSimilarWords target n = []) := by
  refine ⟨findSimilarWords_sorted L target n, findSimilarWords_length_le L target n,
    ?_, findSimilarWords_empty_db L target n, findSimilarWords_empty_of_no_match L target n⟩
  intro p hp
  exact ⟨(mem_findSimilarWords hp).2.1, (mem_findSimilarWords hp).2.2.2⟩

/-- Counterexample for C6: with rows `abd`, `abc` (in that table order) and
target `abx`, both candidates score `2/3`; the result keeps table order
`abd, abc`, not the lexical tie-break order `abc, abd` the claim states. -/
theorem c6_counterexample :
    StandaloneLexicon.findSimilarWords
        ⟨[(['a','b','d'], ['x']), (['a','b','c'], ['x'])], false⟩ ['a','b','x'] 5 =
      [(['a','b','d'], 2/3), (['a','b','c'], 2/3)] ∧
    StandaloneLexicon.findSimilarWords
        ⟨[(['a','b','d'], ['x']), (['a','b','c'], ['x'])], false⟩ ['a','b','x'] 5 ≠
      [(['a','b','c'], 2/3), (['a','b','d'], 2/3)] :=
  ⟨by with_unfolding_all rfl, of_decide_eq_true (by with_unfolding_all rfl)⟩

/-- Witness for C6: sortedness and bounds at the lexicon `{casa, caso}` and
target `cana` (whose only match is `casa` at `3/4`), emptiness at an empty
vocabulary and at a vocabulary with no candidate above `0.5`. -/
theorem c6_witness :
    (StandaloneLexicon.findSimilarWords
      ⟨[(['c','a','s','a'], ['k',' ','a']), (['c','a','s','o'], ['k',' ','o'])], true⟩
      ['c','a','n','a'] 5).Pairwise (fun a b => b.2 ≤ a.2) ∧
    (StandaloneLexicon.findSimilarWords
      ⟨[(['c','a','s','a'], ['k',' ','a']), (['c','a','s','o'], ['k',' ','o'])], true⟩
      ['c','a','n','a'] 5).length ≤ 5 ∧
    (pyLower ['c','a','s','a'] ≠ normalizeWord ['c','a','n','a'] ∧
      (1 : ℚ)/2 < ((['c','a','s','a'], (3 : ℚ)/4) : Word × ℚ).2) ∧
    StandaloneLexicon.findSimilarWords ⟨[], false⟩ ['a','b'] 5 = [] ∧
    StandaloneLexicon.findSimilarWords ⟨[(['z','x'], ['p'])], false⟩ ['z','z'] 5 = [] :=
  ⟨(c6_find_similar_contract
      ⟨[(['c','a','s','a'], ['k',' ','a']), (['c','a','s','o'], ['k',' ','o'])], true⟩
      ['c','a','n','a'] 5).1,
   (c6_find_similar_contract
      ⟨[(['c','a','s','a'], ['k',' ','a']), (['c','a','s','o'], ['k',' ','o'])], true⟩
      ['c','a','n','a'] 5).2.1,
   (c6_find_similar_contract
      ⟨[(['c','a','s','a'], ['k',' ','a']), (['c','a','s','o'], ['k',' ','o'])], true⟩
      ['c','a','n','a'] 5).2.2.1 (['c','a','s','a'], 3/4)
      (of_decide_eq_true (by with_unfolding_all rfl)),
   (c6_find_similar_contract ⟨[], false⟩ ['a','b'] 5).2.2.2.1 rfl,
   (c6_find_similar_contract ⟨[(['z','x'], ['p'])], false⟩ ['z','z'] 5).2.2.2.2
      (of_decide_eq_true (by with_unfolding_all rfl))⟩

/-- C10: every prediction confidence_score lies in `[0, 1]`, and every
(word, score) pair produced by `find_similar_words` has score strictly
greater than `0.5` and at most `1`. -/
theorem c10_score_invariants (L : StandaloneLexicon) (w : Word) (n : ℕ) (p : Word × ℚ) :
    (0 ≤ (predictWord L.ops w).confidence_score ∧
      (predictWord L.ops w).confidence_score ≤ 1) ∧
    (p ∈ L.findSimilarWords w n → 1/2 < p.2 ∧ p.2 ≤ 1) := by
  refine ⟨predictWord_score_bounds L w, fun hp => ?_⟩
  refine ⟨(mem_findSimilarWords hp).2.2.2, ?_⟩
  rw [(mem_findSimilarWords hp).2.2.1]
  exact calculateSimilarity_le_one _ _

/-- Witness for C10: bounds at the lexicon `{casa, caso}`, the word `cana`
and its similar-words entry `(casa, 3/4)`. -/
theorem c10_witness :
    (0 ≤ (predictWord (StandaloneLexicon.ops
        ⟨[(['c','a','s','a'], ['k',' ','a']), (['c','a','s','o'], ['k',' ','o'])], true⟩)
        ['c','a','n','a']).confidence_score ∧
      (predictWord (StandaloneLexicon.ops
        ⟨[(['c','a','s','a'], ['k',' ','a']), (['c','a','s','o'], ['k',' ','o'])], true⟩)
        ['c','a','n','a']).confidence_score ≤ 1) ∧
    ((1 : ℚ)/2 < ((['c','a','s','a'], (3 : ℚ)/4) : Word × ℚ).2 ∧
      ((['c','a','s','a'], (3 : ℚ)/4) : Word × ℚ).2 ≤ 1) :=
  ⟨(c10_score_invariants
      ⟨[(['c','a','s','a'], ['k',' ','a']), (['c','a','s','o'], ['k',' ','o'])], true⟩
      ['c','a','n','a'] 5 (['c','a','s','a'], 3/4)).1,
   (c10_score_invariants
      ⟨[(['c','a','s','a'], ['k',' ','a']), (['c','a','s','o'], ['k',' ','o'])], true⟩
      ['c','a','n','a'] 5 (['c','a','s','a'], 3/4)).2
      (of_decide_eq_true (by with_unfolding_all rfl))⟩


end S2PV
